import Mathlib

/-!
Verification of the `ChatSession` prompt-construction and history logic,
the personality persistence layer, and the message-send flow of `chat.py`,
via a shallow embedding in Lean.  Conversation turns are `(role, text)`
pairs of strings, histories are Lean lists in insertion order, and the
GUI / filesystem / inference backend are modelled as explicit oracles.
-/

/-- A conversation turn: a `(role, text)` pair, as appended by
`ChatSession.add_message`. -/
abbrev Turn := String × String

/-- The fixed window size `MAX_EXCHANGES = 10` from `_build_prompt`. -/
def MAX_EXCHANGES : Nat := 10

/-- The comprehension body of `_build_prompt`:
`f"{'User:' if r == 'user' else 'Assistant:'} {t}"`. -/
def renderTurn (p : Turn) : String :=
  (if p.1 == "user" then "User:" else "Assistant:") ++ " " ++ p.2

/-- `ChatSession._build_prompt` as a pure function of the history it reads.
Mirrors the source line by line: filter the system messages, filter the
non-system turns, keep the last `MAX_EXCHANGES` of them (Python
`user_msgs[-MAX_EXCHANGES:]`, i.e. drop all but the last 10), render each
kept turn, join with newlines, and wrap with the system prefix and the
trailing `"\nUser: <input>\nAssistant: "`. -/
def _build_prompt (history : List Turn) (new_input : String) : String :=
  let system_msgs := (history.filter (fun p => p.1 == "system")).map Prod.snd
  let user_msgs := history.filter (fun p => p.1 != "system")
  let trimmed_history := user_msgs.drop (user_msgs.length - MAX_EXCHANGES)
  let prompt_parts := trimmed_history.map renderTurn
  let prompt_text := String.intercalate "\n" prompt_parts
  (match system_msgs with
   | [] => ""
   | s :: _ => s ++ "\n") ++ prompt_text ++ "\nUser: " ++ new_input ++ "\nAssistant: "

/-- The mutable state of a `ChatSession`: the model path bound at
construction and the ordered conversation history.  The opaque `llm`
handle is modelled separately as a function oracle (see `LlamaFn`). -/
structure ChatSession where
  model_path : String
  history : List Turn
deriving DecidableEq, Repr

/-- `ChatSession.reset`: `self.history = []`. -/
def ChatSession.reset (s : ChatSession) : ChatSession :=
  { s with history := [] }

/-- `ChatSession.add_message`: `self.history.append((role, text))`.
The source performs no validation on `role` or `text`. -/
def ChatSession.add_message (s : ChatSession) (role text : String) : ChatSession :=
  { s with history := s.history ++ [(role, text)] }

/-- `ChatSession._build_prompt` as a method on the session state: it
returns the assembled string and the (unchanged) post-state.  The method
body only reads `self.history`; it contains no assignment to `self`. -/
def ChatSession.build_prompt_st (s : ChatSession) (new_input : String) :
    String × ChatSession :=
  (_build_prompt s.history new_input, s)

/-- The texts of the system turns of a history, in insertion order
(the `system_msgs` list of `_build_prompt`). -/
def systemTexts (history : List Turn) : List String :=
  (history.filter (fun p => p.1 == "system")).map Prod.snd

/-- The non-system turns of a history, in insertion order
(the `user_msgs` list of `_build_prompt`). -/
def nonSystemTurns (history : List Turn) : List Turn :=
  history.filter (fun p => p.1 != "system")

/-- Modelled from the spec (section 8): the output formula
`(systemText + "\n" if present else "") + allTurnsRendered +
"\nUser: " + x + "\nAssistant: "` against which `_build_prompt`
is compared for short histories. -/
def specPrompt (systemText : Option String) (turns : List Turn) (x : String) : String :=
  (match systemText with
   | some s => s ++ "\n"
   | none => "") ++
  String.intercalate "\n" (turns.map renderTurn) ++
  "\nUser: " ++ x ++ "\nAssistant: "

example : _build_prompt [("system", "You are Nyx"), ("user", "hi")] "how are you?" =
    "You are Nyx\nUser: hi\nUser: how are you?\nAssistant: " := by decide

example : _build_prompt [] "x" = "\nUser: x\nAssistant: " := by decide

/-- C1: for a history with at most one system turn and at most 10
non-system turns, `_build_prompt` renders the optional system prefix,
then every non-system turn in insertion order joined by newlines, then
the `"\nUser: <x>\nAssistant: "` suffix; in particular the
two-turn Nyx scenario produces exactly the expected string. -/
theorem build_prompt_small_history (h : List Turn) (x : String)
    (hsys : (systemTexts h).length ≤ 1)
    (hns : (nonSystemTurns h).length ≤ 10) :
    _build_prompt h x = specPrompt (systemTexts h).head? (nonSystemTurns h) x ∧
    _build_prompt [("system", "You are Nyx"), ("user", "hi")] "how are you?" =
      "You are Nyx\nUser: hi\nUser: how are you?\nAssistant: " := by
  refine ⟨?_, by decide⟩
  have h0 : (h.filter (fun p => p.1 != "system")).length - MAX_EXCHANGES = 0 :=
    Nat.sub_eq_zero_of_le hns
  simp only [_build_prompt, specPrompt, systemTexts, nonSystemTurns]
  rw [h0, List.drop_zero]
  cases hfs : (h.filter (fun p => p.1 == "system")).map Prod.snd with
  | nil => rfl
  | cons s rest => rfl

/-- C1 witness at a concrete history and input. -/
theorem build_prompt_small_history_witness :
    (systemTexts [("system", "S"), ("user", "hi")]).length ≤ 1 ∧
    (nonSystemTurns [("system", "S"), ("user", "hi")]).length ≤ 10 ∧
    _build_prompt [("system", "S"), ("user", "hi")] "q" =
      specPrompt (systemTexts [("system", "S"), ("user", "hi")]).head?
        (nonSystemTurns [("system", "S"), ("user", "hi")]) "q" :=
  ⟨by decide, by decide,
    (build_prompt_small_history [("system", "S"), ("user", "hi")] "q"
      (by decide) (by decide)).1⟩

/-- Dropping to the last-10 window: for `l1 ++ l2` with `l2` at least 10
long, `l[-10:]` (embedded as `drop (length - 10)`) ignores `l1`. -/
theorem drop_window_append (l1 l2 : List Turn) (h : 10 ≤ l2.length) :
    (l1 ++ l2).drop ((l1 ++ l2).length - 10) = l2.drop (l2.length - 10) := by
  rw [List.length_append, Nat.add_sub_assoc h, List.drop_append]

/-- C2: a non-system turn followed by at least 10 later non-system turns
never affects the output of `_build_prompt` (it falls outside the last-10
window and can be deleted without changing the prompt); and in the
12-alternating-turn scenario the output renders exactly the turns at
positions 2..11, in order. -/
theorem build_prompt_drops_old_turns (pre : List Turn) (t : Turn)
    (post : List Turn) (x : String)
    (ht : t.1 ≠ "system")
    (h10 : 10 ≤ (nonSystemTurns post).length) :
    _build_prompt (pre ++ t :: post) x = _build_prompt (pre ++ post) x ∧
    _build_prompt [("user", "aa"), ("assistant", "bb"), ("user", "cc"),
        ("assistant", "dd"), ("user", "ee"), ("assistant", "ff"),
        ("user", "gg"), ("assistant", "hh"), ("user", "ii"),
        ("assistant", "jj"), ("user", "kk"), ("assistant", "ll")] "next" =
      "User: cc\nAssistant: dd\nUser: ee\nAssistant: ff\nUser: gg\nAssistant: hh\nUser: ii\nAssistant: jj\nUser: kk\nAssistant: ll\nUser: next\nAssistant: " := by
  refine ⟨?_, by decide⟩
  have hsys : (t.1 == "system") = false := by
    simp [ht]
  have hns : (t.1 != "system") = true := by
    simp [ht]
  simp only [_build_prompt, MAX_EXCHANGES, List.filter_append, List.filter_cons,
    hsys, hns, if_true, if_false, Bool.false_eq_true, ite_false, ite_true]
  have hwin :
      ((pre.filter (fun p => p.1 != "system")) ++
          t :: (post.filter (fun p => p.1 != "system"))).drop
        (((pre.filter (fun p => p.1 != "system")) ++
          t :: (post.filter (fun p => p.1 != "system"))).length - 10) =
      ((pre.filter (fun p => p.1 != "system")) ++
          (post.filter (fun p => p.1 != "system"))).drop
        (((pre.filter (fun p => p.1 != "system")) ++
          (post.filter (fun p => p.1 != "system"))).length - 10) := by
    have h1 := drop_window_append
      ((pre.filter (fun p => p.1 != "system")) ++ [t])
      (post.filter (fun p => p.1 != "system")) h10
    have h2 := drop_window_append (pre.filter (fun p => p.1 != "system"))
      (post.filter (fun p => p.1 != "system")) h10
    simpa [List.append_assoc] using h1.trans h2.symm
  rw [hwin]

/-- C2 witness: deleting the oldest turn of an 11-non-system-turn history
leaves the prompt unchanged. -/
theorem build_prompt_drops_old_turns_witness :
    (("user", "aa") : Turn).1 ≠ "system" ∧
    10 ≤ (nonSystemTurns [("user", "b0"), ("user", "b1"), ("user", "b2"),
      ("user", "b3"), ("user", "b4"), ("user", "b5"), ("user", "b6"),
      ("user", "b7"), ("user", "b8"), ("user", "b9")]).length ∧
    _build_prompt ([] ++ ("user", "aa") :: [("user", "b0"), ("user", "b1"),
        ("user", "b2"), ("user", "b3"), ("user", "b4"), ("user", "b5"),
        ("user", "b6"), ("user", "b7"), ("user", "b8"), ("user", "b9")]) "q" =
      _build_prompt ([] ++ [("user", "b0"), ("user", "b1"), ("user", "b2"),
        ("user", "b3"), ("user", "b4"), ("user", "b5"), ("user", "b6"),
        ("user", "b7"), ("user", "b8"), ("user", "b9")]) "q" :=
  ⟨by decide, by decide,
    (build_prompt_drops_old_turns [] ("user", "aa") [("user", "b0"),
      ("user", "b1"), ("user", "b2"), ("user", "b3"), ("user", "b4"),
      ("user", "b5"), ("user", "b6"), ("user", "b7"), ("user", "b8"),
      ("user", "b9")] "q" (by decide) (by decide)).1⟩

/-- C3: a system turn that is not the first system turn of the history can
be deleted without changing the output of `_build_prompt` (only the first
system turn's text is used); and in a two-system-turn scenario only the
first system text appears in the prompt. -/
theorem build_prompt_first_system_wins (pre : List Turn) (s : String)
    (post : List Turn) (x : String)
    (hpre : ∃ p ∈ pre, p.1 = "system") :
    _build_prompt (pre ++ ("system", s) :: post) x = _build_prompt (pre ++ post) x ∧
    _build_prompt [("system", "A"), ("system", "B"), ("user", "hi")] "q" =
      "A\nUser: hi\nUser: q\nAssistant: " := by
  refine ⟨?_, by decide⟩
  obtain ⟨p, hmem, hp⟩ := hpre
  have hne : pre.filter (fun q => q.1 == "system") ≠ [] := by
    intro hnil
    have hpmem : p ∈ pre.filter (fun q => q.1 == "system") :=
      List.mem_filter.mpr ⟨hmem, by simp [hp]⟩
    rw [hnil] at hpmem
    exact absurd hpmem (List.not_mem_nil p)
  simp only [_build_prompt, MAX_EXCHANGES, List.filter_append, List.filter_cons]
  cases hc : pre.filter (fun q => q.1 == "system") with
  | nil => exact absurd hc hne
  | cons a as => simp

/-- C3 witness: with two system turns, deleting the second leaves the
prompt unchanged. -/
theorem build_prompt_first_system_wins_witness :
    (∃ p ∈ [(("system", "A") : Turn)], p.1 = "system") ∧
    _build_prompt ([("system", "A")] ++ ("system", "B") :: [("user", "hi")]) "q" =
      _build_prompt ([("system", "A")] ++ [("user", "hi")]) "q" :=
  ⟨⟨("system", "A"), by decide, rfl⟩,
    (build_prompt_first_system_wins [("system", "A")] "B" [("user", "hi")] "q"
      ⟨("system", "A"), by decide, rfl⟩).1⟩

/-- C6: `_build_prompt` has no side effect on the session: the post-state
returned by the method equals the pre-state (the source method only reads
`self.history`). -/
theorem build_prompt_no_side_effect (s : ChatSession) (x : String) :
    (s.build_prompt_st x).2 = s := rfl

/-- C6 witness at a concrete session. -/
theorem build_prompt_no_side_effect_witness :
    (ChatSession.build_prompt_st ⟨"m.gguf", [("user", "hi")]⟩ "q").2 =
      (⟨"m.gguf", [("user", "hi")]⟩ : ChatSession) :=
  build_prompt_no_side_effect ⟨"m.gguf", [("user", "hi")]⟩ "q"

/-- C7: after `reset()`, `_build_prompt x` yields exactly
`"\nUser: " ++ x ++ "\nAssistant: "`: no system prefix and no prior
turns appear. -/
theorem reset_then_build_prompt (s : ChatSession) (x : String) :
    (s.reset.build_prompt_st x).1 = "\nUser: " ++ x ++ "\nAssistant: " := by
  show _build_prompt [] x = _
  unfold _build_prompt
  simp [String.intercalate]

/-- Python `str.strip()`: remove leading and trailing whitespace.
Implemented by structural recursion on the character list (Lean's
built-in `String.trim` is not kernel-reducible). -/
def pyStrip (s : String) : String :=
  ⟨((s.data.dropWhile Char.isWhitespace).reverse.dropWhile
      Char.isWhitespace).reverse⟩

/-- One element of the `choices` list of a completion result: a dict
whose `"text"` key may be absent (read as `choice.get("text", "")`). -/
structure LlamaChoice where
  text : Option String
deriving DecidableEq, Repr

/-- The duck-typed completion result dict: the `"choices"` key may be
absent (read as `result.get("choices", [{}])`). -/
structure LlamaResult where
  choices : Option (List LlamaChoice)
deriving DecidableEq, Repr

/-- The inference backend oracle standing for `self.llm(...)`: maps the
prompt, `max_tokens` and the `stop` list either to a raised-exception
message or to a result dict. -/
abbrev LlamaFn := String → Nat → List String → Except String LlamaResult

/-- `ChatSession.generate_response`: build the full prompt, call the
backend with `stop=["User:", "Assistant:"]`, read
`result.get("choices", [{}])[0].get("text", "")`, strip it, append it to
the history as an assistant turn and return it.  A raised backend
exception propagates as `.error`; indexing `[0]` into an explicitly
empty `choices` list raises an `IndexError`. -/
def ChatSession.generate_response (llm : LlamaFn) (s : ChatSession)
    (prompt : String) (max_tokens : Nat) :
    Except String (String × ChatSession) :=
  let full_prompt := _build_prompt s.history prompt
  match llm full_prompt max_tokens ["User:", "Assistant:"] with
  | .error e => .error e
  | .ok result =>
    match result.choices.getD [⟨none⟩] with
    | [] => .error "IndexError: list index out of range"
    | c :: _ =>
      let text := pyStrip (c.text.getD "")
      .ok (text, s.add_message "assistant" text)

/-- `generate_response` with the default `max_tokens=512` of the source. -/
def ChatSession.generate_response_default (llm : LlamaFn) (s : ChatSession)
    (prompt : String) : Except String (String × ChatSession) :=
  s.generate_response llm prompt 512

/-- The state of the `ChatApp` that the send flow touches: the current
chat session and the chat display transcript (sender, text lines
appended by `append_chat`). -/
structure ChatApp where
  session : ChatSession
  display : List Turn
deriving DecidableEq, Repr

/-- `ChatApp.append_chat`: appends one sender-labelled line to the chat
display. -/
def ChatApp.append_chat (app : ChatApp) (sender text : String) : ChatApp :=
  { app with display := app.display ++ [(sender, text)] }

/-- `ChatApp.send_message` composed with the worker thread run to
completion and `on_response_ready`, for an app whose session is set:
strip the input; if empty, do nothing; otherwise display the `You` line,
append the user turn to the session history, and run
`generate_response` with the default `max_tokens=512`.  On success the
response text is displayed under `persona`
(`self.current_persona_key or "Assistant"`); on a raised exception the
worker emits `f"[Error] {e}"`, which `on_response_ready` displays the
same way — the session itself is left exactly as it was after the user
turn was appended. -/
def ChatApp.send_message (llm : LlamaFn) (persona : String) (app : ChatApp)
    (input_text : String) : ChatApp :=
  let user_text := pyStrip input_text
  if user_text = "" then app
  else
    let app1 := app.append_chat "You" user_text
    let app2 := { app1 with session := app1.session.add_message "user" user_text }
    match app2.session.generate_response llm user_text 512 with
    | .ok (text, s2) => ChatApp.append_chat { app2 with session := s2 } persona text
    | .error e => app2.append_chat persona ("[Error] " ++ e)

/-- C5: on a successful backend call, `generate_response` builds the
prompt with `_build_prompt`, invokes the model with stop sequences
`"User:"` and `"Assistant:"` and the given `max_tokens`, takes the first
completion's text, strips surrounding whitespace, appends exactly one
`("assistant", strippedText)` turn to the history, and returns the
stripped text; and `max_tokens` defaults to 512. -/
theorem generate_response_success (llm : LlamaFn) (s : ChatSession)
    (x : String) (mt : Nat) (r : LlamaResult) (c : LlamaChoice)
    (rest : List LlamaChoice)
    (hok : llm (_build_prompt s.history x) mt ["User:", "Assistant:"] = .ok r)
    (hc : r.choices.getD [⟨none⟩] = c :: rest) :
    s.generate_response llm x mt =
      .ok (pyStrip (c.text.getD ""),
        { s with history := s.history ++ [("assistant", pyStrip (c.text.getD ""))] }) ∧
    s.generate_response_default llm x = s.generate_response llm x 512 := by
  refine ⟨?_, rfl⟩
  simp only [ChatSession.generate_response, hok, hc, ChatSession.add_message]

/-- C5 witness at a concrete backend, result and session. -/
theorem generate_response_success_witness :
    (fun _ _ _ => Except.ok ⟨some [⟨some " hello "⟩]⟩ : LlamaFn)
        (_build_prompt [("user", "hey")] "q") 5 ["User:", "Assistant:"] =
      .ok ⟨some [⟨some " hello "⟩]⟩ ∧
    (LlamaResult.choices ⟨some [⟨some " hello "⟩]⟩).getD [⟨none⟩] =
      (⟨some " hello "⟩ : LlamaChoice) :: [] ∧
    ChatSession.generate_response (fun _ _ _ => Except.ok ⟨some [⟨some " hello "⟩]⟩)
        ⟨"m.gguf", [("user", "hey")]⟩ "q" 5 =
      .ok ("hello", ⟨"m.gguf", [("user", "hey"), ("assistant", "hello")]⟩) :=
  ⟨rfl, rfl,
    ((generate_response_success (fun _ _ _ => Except.ok ⟨some [⟨some " hello "⟩]⟩)
      ⟨"m.gguf", [("user", "hey")]⟩ "q" 5 ⟨some [⟨some " hello "⟩]⟩
      ⟨some " hello "⟩ [] rfl rfl).1).trans rfl⟩

/-- C4 counterexample: with a backend that always raises `"boom"`, the
send flow displays `"[Error] boom"` under the persona name, but the
session history ends as `[("system","S"), ("user","hi")]` — no assistant
turn and no error text is appended to the session's history, contrary to
the claim. -/
theorem send_message_error_cex :
    ChatApp.send_message (fun _ _ _ => .error "boom") "Nyx"
        ⟨⟨"m.gguf", [("system", "S")]⟩, []⟩ "hi" =
      ⟨⟨"m.gguf", [("system", "S"), ("user", "hi")]⟩,
        [("You", "hi"), ("Nyx", "[Error] boom")]⟩ ∧
    (ChatApp.send_message (fun _ _ _ => .error "boom") "Nyx"
        ⟨⟨"m.gguf", [("system", "S")]⟩, []⟩ "hi").session.history.all
      (fun p => !(p.1 == "assistant")) = true := by
  exact ⟨by decide, by decide⟩

/-- C4 (amended): when the backend call raises, the send flow renders the
error text as if it were the assistant's reply — the line
`(persona, "[Error] " ++ e)` is appended to the chat display — but the
error is not appended to the session's history: the session keeps
exactly the prior history plus the just-added user turn, and gains no
assistant turn. -/
theorem send_message_error_not_in_history (llm : LlamaFn) (persona : String)
    (app : ChatApp) (input_text : String) (e : String)
    (hne : ¬ pyStrip input_text = "")
    (herr : llm (_build_prompt (app.session.history ++ [("user", pyStrip input_text)])
        (pyStrip input_text)) 512 ["User:", "Assistant:"] = .error e) :
    app.send_message llm persona input_text =
      ⟨{ app.session with
          history := app.session.history ++ [("user", pyStrip input_text)] },
        app.display ++ [("You", pyStrip input_text), (persona, "[Error] " ++ e)]⟩ := by
  simp only [ChatApp.send_message, ChatApp.append_chat, ChatSession.add_message,
    ChatSession.generate_response, if_neg hne]
  rw [herr]
  simp

/-- C4 amended-claim witness at a concrete failing backend. -/
theorem send_message_error_not_in_history_witness :
    ¬ pyStrip "hi" = "" ∧
    ChatApp.send_message (fun _ _ _ => .error "boom") "Nyx"
        ⟨⟨"m.gguf", [("system", "S")]⟩, [("System", "go")]⟩ "hi" =
      ⟨⟨"m.gguf", [("system", "S"), ("user", "hi")]⟩,
        [("System", "go"), ("You", "hi"), ("Nyx", "[Error] boom")]⟩ :=
  ⟨by decide,
    (send_message_error_not_in_history (fun _ _ _ => .error "boom") "Nyx"
      ⟨⟨"m.gguf", [("system", "S")]⟩, [("System", "go")]⟩ "hi" "boom"
      (by decide) rfl).trans (by decide)⟩

/-- The JSON value fragment used by the personality document: strings,
arrays and objects.  `json.dump` and `json.load` are modelled at the
level of parsed JSON values (the stdlib codec round-trips these values
exactly); object member order is insertion order, as in Python dicts. -/
inductive Json where
  | str (s : String)
  | arr (items : List Json)
  | obj (fields : List (String × Json))

/-- What `load_personalities` can observe about `PERSONALITY_FILE`:
absent (`os.path.exists` false), unreadable (`open`/read raises),
unparsable (`json.load` raises), or a parsed document. -/
inductive PersonalityFile where
  | missing
  | ioError (msg : String)
  | parseError (msg : String)
  | parsed (doc : Json)

/-- The observable outcome of `load_personalities`: the warning dialog
text if one was shown, and the mapping returned. -/
structure LoadResult where
  warning : Option String
  personalities : Json

/-- `load_personalities`: if the file exists, parse and return it; any
exception is caught, surfaced as a `QMessageBox.warning`, and an empty
mapping (`Json.obj []`, the empty dict) is returned; a missing file
skips the read and returns the empty mapping with no warning.  The
function is total: no exception propagates to the caller. -/
def load_personalities : PersonalityFile → LoadResult
  | .missing => ⟨none, Json.obj []⟩
  | .ioError e => ⟨some ("Could not load personalities: " ++ e), Json.obj []⟩
  | .parseError e => ⟨some ("Could not load personalities: " ++ e), Json.obj []⟩
  | .parsed doc => ⟨none, doc⟩

/-- `save_personalities`: dump the whole mapping to the file, overwriting
it; `writeError` is the oracle for whether `open`/`json.dump` raises.
On failure a warning is surfaced and the prior on-disk state is kept. -/
def save_personalities (writeError : Option String) (prior : PersonalityFile)
    (d : Json) : Option String × PersonalityFile :=
  match writeError with
  | none => (none, .parsed d)
  | some e => (some ("Failed to save personalities: " ++ e), prior)

/-- A personality record field value: a string, or a list of strings
(the `interests` and `tags` fields). -/
inductive FieldVal where
  | str (s : String)
  | strList (l : List String)
deriving DecidableEq, Repr

/-- A personality record: field name to field value, in insertion order. -/
abbrev PersonalityRecord := List (String × FieldVal)

/-- The personality mapping: name to record, in insertion order. -/
abbrev PersonalityMap := List (String × PersonalityRecord)

/-- Embed a field value into the JSON document. -/
def FieldVal.toJson : FieldVal → Json
  | .str s => .str s
  | .strList l => .arr (l.map Json.str)

/-- Embed a record into the JSON document. -/
def recordToJson (r : PersonalityRecord) : Json :=
  .obj (r.map (fun p => (p.1, p.2.toJson)))

/-- Embed the whole mapping into the JSON document (the value
`json.dump` serializes). -/
def mapToJson (m : PersonalityMap) : Json :=
  .obj (m.map (fun p => (p.1, recordToJson p.2)))

/-- Read a list of string items back from the JSON document. -/
def decodeStrings : List Json → Option (List String)
  | [] => some []
  | Json.str s :: rest => (decodeStrings rest).map (fun l => s :: l)
  | _ => none

/-- Read a field value back from the JSON document. -/
def FieldVal.fromJson : Json → Option FieldVal
  | .str s => some (.str s)
  | .arr items => (decodeStrings items).map FieldVal.strList
  | .obj _ => none

/-- Read the fields of a record back from the JSON document. -/
def decodeRecordFields : List (String × Json) → Option PersonalityRecord
  | [] => some []
  | (k, j) :: rest =>
    match FieldVal.fromJson j, decodeRecordFields rest with
    | some v, some r => some ((k, v) :: r)
    | _, _ => none

/-- Read a record back from the JSON document. -/
def recordFromJson : Json → Option PersonalityRecord
  | .obj fields => decodeRecordFields fields
  | _ => none

/-- Read the entries of the mapping back from the JSON document. -/
def decodeMapEntries : List (String × Json) → Option PersonalityMap
  | [] => some []
  | (k, j) :: rest =>
    match recordFromJson j, decodeMapEntries rest with
    | some r, some m => some ((k, r) :: m)
    | _, _ => none

/-- Read the whole mapping back from the JSON document. -/
def mapFromJson : Json → Option PersonalityMap
  | .obj fields => decodeMapEntries fields
  | _ => none

/-- Reading back a list of string items recovers the list. -/
theorem decodeStrings_roundtrip (l : List String) :
    decodeStrings (l.map Json.str) = some l := by
  induction l with
  | nil => rfl
  | cons a l ih => simp [decodeStrings, ih]

/-- Reading back an embedded field value recovers it. -/
theorem fieldVal_roundtrip (v : FieldVal) : FieldVal.fromJson v.toJson = some v := by
  cases v with
  | str s => rfl
  | strList l => simp [FieldVal.toJson, FieldVal.fromJson, decodeStrings_roundtrip]

/-- Reading back an embedded record recovers it. -/
theorem record_roundtrip (r : PersonalityRecord) :
    recordFromJson (recordToJson r) = some r := by
  simp only [recordToJson, recordFromJson]
  induction r with
  | nil => rfl
  | cons p r ih => simp [decodeRecordFields, fieldVal_roundtrip, ih]

/-- Reading back the embedded mapping recovers it. -/
theorem map_roundtrip (m : PersonalityMap) :
    mapFromJson (mapToJson m) = some m := by
  simp only [mapToJson, mapFromJson]
  induction m with
  | nil => rfl
  | cons p m ih => simp [decodeMapEntries, record_roundtrip, ih]

/-- C8: `load_personalities` returns the empty mapping without a warning
when the file is missing, returns the empty mapping after surfacing a
warning on any IO or parse failure, and (being a total function into
`LoadResult`) never propagates an exception to the caller. -/
theorem load_personalities_safe :
    load_personalities .missing = ⟨none, Json.obj []⟩ ∧
    (∀ e, load_personalities (.ioError e) =
      ⟨some ("Could not load personalities: " ++ e), Json.obj []⟩) ∧
    (∀ e, load_personalities (.parseError e) =
      ⟨some ("Could not load personalities: " ++ e), Json.obj []⟩) :=
  ⟨rfl, fun _ => rfl, fun _ => rfl⟩

/-- C9: given the write succeeded, saving a personality mapping and then
loading it reproduces it: the loaded document is exactly the saved one,
and decoding it field-for-field yields the original typed mapping. -/
theorem save_load_roundtrip (m : PersonalityMap) (prior : PersonalityFile)
    (w : Option String) (hw : w = none) :
    (load_personalities
        (save_personalities w prior (mapToJson m)).2).personalities = mapToJson m ∧
    mapFromJson (load_personalities
        (save_personalities w prior (mapToJson m)).2).personalities = some m := by
  subst hw
  exact ⟨rfl, map_roundtrip m⟩

/-- C9 witness at a concrete two-record mapping. -/
theorem save_load_roundtrip_witness :
    (none : Option String) = none ∧
    mapFromJson (load_personalities
        (save_personalities none .missing
          (mapToJson [("Nyx", [("name", .str "Nyx"),
            ("interests", .strList ["books", "tea"])])])).2).personalities =
      some [("Nyx", [("name", .str "Nyx"),
        ("interests", .strList ["books", "tea"])])] :=
  ⟨rfl, (save_load_roundtrip [("Nyx", [("name", .str "Nyx"),
    ("interests", .strList ["books", "tea"])])] .missing none rfl).2⟩

/-- C10: `add_message` performs no validation on the role: any `(r, t)`
pair is appended verbatim; a turn whose role is not `"system"` is kept
by the non-system filter and, once in the last-10 window, is rendered
with the `Assistant:` label unless the role is exactly `"user"`; in
particular a turn added with the undefined role `"tool"` appears in the
prompt as an assistant line. -/
theorem add_message_no_validation (s : ChatSession) (r t : String)
    (hr : r ≠ "system") :
    (s.add_message r t).history = s.history ++ [(r, t)] ∧
    (r ≠ "user" → renderTurn (r, t) = "Assistant: " ++ t) ∧
    nonSystemTurns (s.history ++ [(r, t)]) = nonSystemTurns s.history ++ [(r, t)] ∧
    ((r, t) ∈ (nonSystemTurns (s.history ++ [(r, t)])).drop
      ((nonSystemTurns (s.history ++ [(r, t)])).length - MAX_EXCHANGES)) ∧
    _build_prompt [("tool", "data")] "next" =
      "Assistant: data\nUser: next\nAssistant: " := by
  have hkeep : nonSystemTurns (s.history ++ [(r, t)]) =
      nonSystemTurns s.history ++ [(r, t)] := by
    simp [nonSystemTurns, List.filter_append, List.filter_cons, hr]
  refine ⟨rfl, ?_, hkeep, ?_, by decide⟩
  · intro hru
    simp only [renderTurn]
    rw [if_neg (by simp [hru])]
    have h1 : ("Assistant:" ++ " " : String) = "Assistant: " := rfl
    rw [h1]
  · rw [hkeep]
    have hlen : (nonSystemTurns s.history ++ [(r, t)]).length - MAX_EXCHANGES ≤
        (nonSystemTurns s.history).length := by
      simp only [List.length_append, List.length_singleton, MAX_EXCHANGES]
      omega
    rw [List.drop_append_of_le_length hlen]
    exact List.mem_append_right _ (List.mem_singleton.mpr rfl)

/-- C10 witness: a `"tool"` turn is appended, filtered into the window,
and rendered as an assistant line. -/
theorem add_message_no_validation_witness :
    ("tool" : String) ≠ "system" ∧
    (ChatSession.add_message ⟨"m.gguf", []⟩ "tool" "data").history =
      [] ++ [("tool", "data")] ∧
    _build_prompt [("tool", "data")] "next" =
      "Assistant: data\nUser: next\nAssistant: " :=
  ⟨by decide,
    (add_message_no_validation ⟨"m.gguf", []⟩ "tool" "data" (by decide)).1,
    (add_message_no_validation ⟨"m.gguf", []⟩ "tool" "data" (by decide)).2.2.2.2⟩
